import Mathlib

/-!
# Verification of the Eon Terraform provider's translation layer

Shallow embedding of the backup-policy expression translator, the schedule
translators, the backup-policy CRUD reconciler, the restore-job dispatch and
builders, and the restore-job polling loop, translated from
`internal/provider/resource_backup_policy.go`,
`internal/provider/restore_job_resource.go`, `internal/provider/utils.go` and
`internal/client/client.go`.

Conventions of the embedding:
* Terraform framework nullable attributes (`types.String`, `types.Int64`,
  `types.Object`, ...) become `Option` values; `ValueString`/`ValueInt64` on a
  null value yield the zero value (`""` / `0`), which is modelled with `getD`.
* Go `error` returns become `Except String`; a `resp.Diagnostics.AddError`
  followed by `return` becomes an `Except.error` carrying the same message.
* Machine integers are modelled as `Int`; Go's wrapping `int64` multiplication
  is made explicit (`goInt64Mul`) and the `int32` range check of
  `SafeInt32Conversion` keeps its exact bounds.
* HTTP calls of the SDK are abstracted by an `HttpResult` input carrying the
  status code, raw body and decoded value the remote returned; the token
  refresh (`ensureValidToken`) is out of scope and modelled as succeeding.
-/

namespace Eon

/-- Result of the one HTTP exchange an `EonClient` method performs: either a
transport-level error from `Execute()`, or a response with `status` code,
raw `body`, and the decoded `value`. -/
inductive HttpResult (α : Type) where
  | transportError (msg : String)
  | response (status : Nat) (body : String) (value : α)
  deriving Repr, DecidableEq

/-- `Except.isOk` as used in this development. -/
def exceptOk {ε α : Type} : Except ε α → Bool
  | .ok _ => true
  | .error _ => false

/-- `internal/provider/utils.go` `SafeInt32Conversion`: bounds-checked
int64 → int32 conversion (the value is unchanged when in range). -/
def SafeInt32Conversion (value : Int) : Except String Int :=
  if value < -2147483648 ∨ value > 2147483647 then
    .error ("value " ++ toString value ++ " out of int32 bounds")
  else
    .ok value

/-- Prefix an error message, as the Go call sites do with
`fmt.Errorf("...: %s", err)`. -/
def errCtx {α : Type} (pre : String) : Except String α → Except String α
  | .ok a => .ok a
  | .error e => .error (pre ++ e)

/-- Go's wrapping `int64` multiplication (two's complement, 64 bits). -/
def goInt64Mul (a b : Int) : Int :=
  (a * b + 2 ^ 63) % 2 ^ 64 - 2 ^ 63

/-- A Terraform `types.String` attribute that is null or holds `""`
(`x.IsNull() || x.ValueString() == ""`). -/
def strNullOrEmpty : Option String → Bool
  | none => true
  | some s => s = ""

/-! ## Expression model (`resource_backup_policy.go`)

The declarative-document side structures mirror the `tfsdk` model structs;
the condition payloads (operator plus value list) are carried verbatim into
the SDK request, the enum casts being string-identity. -/

structure TagKeyValueModel where
  key : String
  value : String
  deriving Repr, DecidableEq

structure EnvironmentConditionModel where
  operator : String
  environments : List String
  deriving Repr, DecidableEq

structure ResourceTypeConditionModel where
  operator : String
  resourceTypes : List String
  deriving Repr, DecidableEq

structure TagKeysConditionModel where
  operator : String
  tagKeys : List String
  deriving Repr, DecidableEq

structure TagKeyValuesConditionModel where
  operator : String
  tagKeyValues : List TagKeyValueModel
  deriving Repr, DecidableEq

structure DataClassesConditionModel where
  operator : String
  dataClasses : List String
  deriving Repr, DecidableEq

structure AppsConditionModel where
  operator : String
  apps : List String
  deriving Repr, DecidableEq

structure CloudProviderConditionModel where
  operator : String
  cloudProviders : List String
  deriving Repr, DecidableEq

structure AccountIdConditionModel where
  operator : String
  accountIds : List String
  deriving Repr, DecidableEq

structure SourceRegionConditionModel where
  operator : String
  sourceRegions : List String
  deriving Repr, DecidableEq

structure VpcConditionModel where
  operator : String
  vpcs : List String
  deriving Repr, DecidableEq

structure SubnetsConditionModel where
  operator : String
  subnets : List String
  deriving Repr, DecidableEq

structure ResourceGroupNameConditionModel where
  operator : String
  resourceGroupNames : List String
  deriving Repr, DecidableEq

structure ResourceNameConditionModel where
  operator : String
  resourceNames : List String
  deriving Repr, DecidableEq

structure ResourceIdConditionModel where
  operator : String
  resourceIds : List String
  deriving Repr, DecidableEq

/-- `OperandModel`: one operand of a `group` condition; every condition field
is an optional nested object. -/
structure OperandModel where
  resourceType : Option ResourceTypeConditionModel := none
  environment : Option EnvironmentConditionModel := none
  tagKeys : Option TagKeysConditionModel := none
  tagKeyValues : Option TagKeyValuesConditionModel := none
  dataClasses : Option DataClassesConditionModel := none
  apps : Option AppsConditionModel := none
  cloudProvider : Option CloudProviderConditionModel := none
  accountId : Option AccountIdConditionModel := none
  sourceRegion : Option SourceRegionConditionModel := none
  vpc : Option VpcConditionModel := none
  subnets : Option SubnetsConditionModel := none
  resourceGroupName : Option ResourceGroupNameConditionModel := none
  resourceName : Option ResourceNameConditionModel := none
  resourceId : Option ResourceIdConditionModel := none
  deriving Repr, DecidableEq

structure GroupConditionModel where
  operator : String
  operands : List OperandModel
  deriving Repr, DecidableEq

/-- The `expression` attribute object as read by
`createBackupPolicyExpression` through `expressionAttrs[...]`; only the five
keys `environment`, `resource_type`, `tag_key_values`, `tag_keys` and `group`
are ever consulted (the Go `ExpressionModel` declares further fields such as
`data_classes` and `apps`, never read at the top level). -/
structure ExpressionModel where
  environment : Option EnvironmentConditionModel := none
  resourceType : Option ResourceTypeConditionModel := none
  tagKeyValues : Option TagKeyValuesConditionModel := none
  tagKeys : Option TagKeysConditionModel := none
  group : Option GroupConditionModel := none
  deriving Repr, DecidableEq

/-- SDK-side expression node built for one group operand: the loop body of the
`group` branch copies each non-null operand condition into a fresh
`BackupPolicyExpression`. -/
structure ApiOperandExpr where
  resourceType : Option ResourceTypeConditionModel := none
  environment : Option EnvironmentConditionModel := none
  tagKeys : Option TagKeysConditionModel := none
  tagKeyValues : Option TagKeyValuesConditionModel := none
  dataClasses : Option DataClassesConditionModel := none
  apps : Option AppsConditionModel := none
  cloudProvider : Option CloudProviderConditionModel := none
  accountId : Option AccountIdConditionModel := none
  sourceRegion : Option SourceRegionConditionModel := none
  vpc : Option VpcConditionModel := none
  subnets : Option SubnetsConditionModel := none
  resourceGroupName : Option ResourceGroupNameConditionModel := none
  resourceName : Option ResourceNameConditionModel := none
  resourceId : Option ResourceIdConditionModel := none
  deriving Repr, DecidableEq

structure ApiGroupCondition where
  operator : String
  operands : List ApiOperandExpr
  deriving Repr, DecidableEq

/-- SDK `BackupPolicyExpression` as populated by the translator. The SDK type
is uniformly recursive, but `createBackupPolicyExpression` builds at most one
level of nesting (a group of leaf-condition operands), which this structure
captures exactly. -/
structure ApiBackupPolicyExpression where
  environment : Option EnvironmentConditionModel := none
  resourceType : Option ResourceTypeConditionModel := none
  tagKeyValues : Option TagKeyValuesConditionModel := none
  tagKeys : Option TagKeysConditionModel := none
  group : Option ApiGroupCondition := none
  deriving Repr, DecidableEq

/-- Body of the operand loop in the `group` branch of
`createBackupPolicyExpression`: each of the fourteen `if !operand.X.IsNull()`
blocks copies the condition into the fresh operand expression. -/
def buildOperandExpr (operand : OperandModel) : ApiOperandExpr :=
  { resourceType := operand.resourceType
    environment := operand.environment
    tagKeys := operand.tagKeys
    tagKeyValues := operand.tagKeyValues
    dataClasses := operand.dataClasses
    apps := operand.apps
    cloudProvider := operand.cloudProvider
    accountId := operand.accountId
    sourceRegion := operand.sourceRegion
    vpc := operand.vpc
    subnets := operand.subnets
    resourceGroupName := operand.resourceGroupName
    resourceName := operand.resourceName
    resourceId := operand.resourceId }

/-- `createBackupPolicyExpression` (resource_backup_policy.go:1278-1722): null
expression fails; otherwise the five recognized attribute keys are probed in
source order and the function returns at the first populated one; with none
populated it fails. -/
def createBackupPolicyExpression (expression : Option ExpressionModel) :
    Except String ApiBackupPolicyExpression :=
  match expression with
  | none => .error "expression is required for CONDITIONAL resource selection mode"
  | some attrs =>
    match attrs.environment with
    | some envCondition => .ok { environment := some envCondition }
    | none =>
    match attrs.resourceType with
    | some resourceTypeCondition => .ok { resourceType := some resourceTypeCondition }
    | none =>
    match attrs.tagKeyValues with
    | some tagKeyValuesCondition => .ok { tagKeyValues := some tagKeyValuesCondition }
    | none =>
    match attrs.tagKeys with
    | some tagKeysCondition => .ok { tagKeys := some tagKeysCondition }
    | none =>
    match attrs.group with
    | some groupCondition =>
        .ok { group := some { operator := groupCondition.operator
                              operands := groupCondition.operands.map buildOperandExpr } }
    | none =>
        .error "expression must have at least one condition (environment, resource_type, tag_key_values, tag_keys, group, etc.)"

/-- `ResourceSelectorModel` (tfsdk model of the `resource_selector` block). -/
structure ResourceSelectorModel where
  resourceSelectionMode : String
  resourceInclusionOverride : Option (List String) := none
  resourceExclusionOverride : Option (List String) := none
  expression : Option ExpressionModel := none
  deriving Repr, DecidableEq

/-- SDK `BackupPolicyResourceSelector` as assembled by `Create`/`Update`. -/
structure ApiResourceSelector where
  mode : String
  expression : Option ApiBackupPolicyExpression := none
  resourceInclusionOverride : Option (List String) := none
  resourceExclusionOverride : Option (List String) := none
  deriving Repr, DecidableEq

/-- Resource-selector portion of `BackupPolicyResource.Create`
(resource_backup_policy.go:691-731; `Update` lines 936-976 is identical):
`createBackupPolicyExpression` runs only when the `expression` attribute is
populated — a null expression is skipped, whatever the selection mode. -/
def translateResourceSelector (data : ResourceSelectorModel) :
    Except String ApiResourceSelector := do
  let base : ApiResourceSelector := { mode := data.resourceSelectionMode }
  let withExpr ←
    match data.expression with
    | some _ => do
        let expr ← errCtx "Failed to create conditional expression: "
          (createBackupPolicyExpression data.expression)
        pure { base with expression := some expr }
    | none => pure base
  let withIncl :=
    match data.resourceInclusionOverride with
    | some l => { withExpr with resourceInclusionOverride := some l }
    | none => withExpr
  let withExcl :=
    match data.resourceExclusionOverride with
    | some l => { withIncl with resourceExclusionOverride := some l }
    | none => withIncl
  pure withExcl

/-! ## Schedule model (`resource_backup_policy.go`) -/

/-- The `daily_config` attribute object. -/
structure DailyConfigAttrs where
  timeOfDayHour : Int
  timeOfDayMinutes : Int
  startWindowMinutes : Option Int := none
  deriving Repr, DecidableEq

/-- The `interval_config` attribute object (schema field `interval_minutes`). -/
structure IntervalConfigAttrs where
  intervalMinutes : Int
  deriving Repr, DecidableEq

/-- The `schedule_config` attribute object as read through
`scheduleConfigAttrs[...]`. -/
structure ScheduleConfigAttrs where
  frequency : Option String := none
  dailyConfig : Option DailyConfigAttrs := none
  intervalConfig : Option IntervalConfigAttrs := none
  deriving Repr, DecidableEq

structure ApiTimeOfDay where
  hour : Int
  minutes : Int
  deriving Repr, DecidableEq

structure ApiDailyConfig where
  timeOfDay : Option ApiTimeOfDay := none
  startWindowMinutes : Option Int := none
  deriving Repr, DecidableEq

/-- SDK `StandardBackupScheduleConfig`. -/
structure StandardBackupScheduleConfig where
  frequency : String
  dailyConfig : Option ApiDailyConfig := none
  deriving Repr, DecidableEq

structure HighFrequencyIntervalConfig where
  intervalMinutes : Int
  deriving Repr, DecidableEq

/-- SDK `HighFrequencyBackupScheduleConfig`. -/
structure HighFrequencyBackupScheduleConfig where
  frequency : Option String := none
  intervalConfig : Option HighFrequencyIntervalConfig := none
  deriving Repr, DecidableEq

/-- `createStandardScheduleConfig` (resource_backup_policy.go:1190-1239): only
the `DAILY` frequency is handled; any other frequency — `INTERVAL` included —
falls to the default branch and fails as unsupported. -/
def createStandardScheduleConfig (schedule : ScheduleConfigAttrs) :
    Except String StandardBackupScheduleConfig :=
  match schedule.frequency with
  | none => .error "frequency field is required in schedule config"
  | some frequency =>
    if frequency = "DAILY" then
      match schedule.dailyConfig with
      | some dailyConfigAttrs => do
          let hour ← errCtx "invalid time of day hour: "
            (SafeInt32Conversion dailyConfigAttrs.timeOfDayHour)
          let minutes ← errCtx "invalid time of day minutes: "
            (SafeInt32Conversion dailyConfigAttrs.timeOfDayMinutes)
          let startWindow ←
            match dailyConfigAttrs.startWindowMinutes with
            | some sw => do
                let v ← errCtx "invalid start window minutes: " (SafeInt32Conversion sw)
                pure (some v)
            | none => pure none
          pure { frequency := "DAILY"
                 dailyConfig := some { timeOfDay := some { hour := hour, minutes := minutes }
                                       startWindowMinutes := startWindow } }
      | none => pure { frequency := "DAILY" }
    else
      .error ("unsupported schedule frequency: " ++ frequency)

/-- `createHighFrequencyScheduleConfig` (resource_backup_policy.go:1241-1276):
only the `INTERVAL` frequency is handled; the caller-supplied
`interval_minutes` passes `SafeInt32Conversion` and is stored unchanged. -/
def createHighFrequencyScheduleConfig (schedule : ScheduleConfigAttrs) :
    Except String HighFrequencyBackupScheduleConfig :=
  match schedule.frequency with
  | none => .error "frequency field is required in schedule config"
  | some frequency =>
    if frequency = "INTERVAL" then
      match schedule.intervalConfig with
      | none => .error "interval_config field is required for INTERVAL frequency"
      | some intervalConfigAttrs => do
          let intervalHours ← errCtx "invalid interval hours: "
            (SafeInt32Conversion intervalConfigAttrs.intervalMinutes)
          pure { frequency := some "INTERVAL"
                 intervalConfig := some { intervalMinutes := intervalHours } }
    else
      .error ("unsupported high frequency schedule frequency: " ++ frequency)

/-! ## Remote API client (`internal/client/client.go`)

Each method performs one HTTP exchange, whose outcome is the `HttpResult`
input; `ensureValidToken` is modelled as succeeding. -/

/-- Remote `BackupPolicy` payload fields the provider consumes. -/
structure BackupPolicy where
  id : String
  name : String
  enabled : Bool
  deriving Repr, DecidableEq

/-- `EonClient.GetBackupPolicy` (client.go:427-445): any non-200 status —
404 included — is wrapped into a generic `API error` message. -/
def clientGetBackupPolicy (r : HttpResult BackupPolicy) : Except String BackupPolicy :=
  match r with
  | .transportError e => .error ("failed to get backup policy: " ++ e)
  | .response status body policy =>
    if status ≠ 200 then .error ("API error " ++ toString status ++ ": " ++ body)
    else .ok policy

/-- `EonClient.DeleteBackupPolicy` (client.go:490-507): only statuses 200 and
204 are success; a 404 (already-absent policy) is an `API error`. -/
def clientDeleteBackupPolicy (r : HttpResult Unit) : Except String Unit :=
  match r with
  | .transportError e => .error ("failed to delete backup policy: " ++ e)
  | .response status body _ =>
    if status ≠ 200 ∧ status ≠ 204 then
      .error ("API error " ++ toString status ++ ": " ++ body)
    else .ok ()

/-! ## Backup-policy reconciler lifecycle (`resource_backup_policy.go`) -/

/-- Tracked Terraform state of one backup policy. -/
structure BackupPolicyState where
  id : String
  name : String
  enabled : Bool
  createdAt : String
  updatedAt : String
  deriving Repr, DecidableEq

/-- Outcome of a framework `Read` call: an error diagnostic (prior state
kept), removal from state (`resp.State.RemoveResource`, used by the account
resources), or an updated state. -/
inductive ReadOutcome where
  | errorDiag (msg : String) (keptState : BackupPolicyState)
  | removed
  | updatedState (s : BackupPolicyState)
  deriving Repr, DecidableEq

/-- Whether a `Read` outcome dropped the resource from state. -/
def ReadOutcome.isRemoved : ReadOutcome → Bool
  | .removed => true
  | _ => false

/-- Whether a `Read` outcome surfaced an error diagnostic. -/
def ReadOutcome.isError : ReadOutcome → Bool
  | .errorDiag _ _ => true
  | _ => false

/-- `BackupPolicyResource.Read` (resource_backup_policy.go:899-920): any
client error — the wrapped 404 included — becomes an `AddError` diagnostic and
the prior state is kept; on success the state is refreshed, with `created_at`
and `updated_at` stamped from the local clock (`now`). It never calls
`RemoveResource`. -/
def backupPolicyRead (state : BackupPolicyState) (remote : HttpResult BackupPolicy)
    (now : String) : ReadOutcome :=
  match clientGetBackupPolicy remote with
  | .error e => .errorDiag ("Unable to read backup policy: " ++ e) state
  | .ok policy =>
      .updatedState { id := policy.id, name := policy.name, enabled := policy.enabled
                      createdAt := now, updatedAt := now }

/-- `BackupPolicyResource.Delete` (resource_backup_policy.go:1141-1154): any
client error becomes an `AddError` diagnostic. -/
def backupPolicyDelete (remote : HttpResult Unit) : Except String Unit :=
  match clientDeleteBackupPolicy remote with
  | .error e => .error ("Unable to delete backup policy: " ++ e)
  | .ok _ => .ok ()

/-- State-assembly tail of `BackupPolicyResource.Update`
(resource_backup_policy.go:1132-1138), after the remote update succeeded:
id/name/enabled come from the remote reply and both timestamps are stamped
with the local clock (`now`); the prior state's `created_at` is not read. -/
def backupPolicyUpdateState (plan state : BackupPolicyState) (updatedPolicy : BackupPolicy)
    (now : String) : BackupPolicyState :=
  { plan with
    id := updatedPolicy.id
    name := updatedPolicy.name
    enabled := updatedPolicy.enabled
    createdAt := now
    updatedAt := now }

/-! ## Restore job resource (`restore_job_resource.go`) -/

structure EbsRestoreConfig where
  providerVolumeId : Option String := none
  availabilityZone : Option String := none
  volumeType : Option String := none
  volumeSize : Option Int := none
  iops : Option Int := none
  throughput : Option Int := none
  description : Option String := none
  volumeEncryptionKeyId : Option String := none
  tags : Option (List (String × String)) := none
  deriving Repr, DecidableEq

structure VolumeRestoreParam where
  providerVolumeId : Option String := none
  volumeType : Option String := none
  volumeSize : Option Int := none
  iops : Option Int := none
  throughput : Option Int := none
  description : Option String := none
  kmsKeyId : Option String := none
  deriving Repr, DecidableEq

structure Ec2RestoreConfig where
  region : Option String := none
  instanceType : Option String := none
  subnetId : Option String := none
  securityGroupIds : Option (List String) := none
  tags : Option (List (String × String)) := none
  volumeRestoreParams : Option (List VolumeRestoreParam) := none
  deriving Repr, DecidableEq

structure RdsRestoreConfig where
  dbInstanceIdentifier : Option String := none
  dbInstanceClass : Option String := none
  engine : Option String := none
  region : Option String := none
  subnetGroupName : Option String := none
  vpcSecurityGroupIds : Option (List String) := none
  kmsKeyId : Option String := none
  tags : Option (List (String × String)) := none
  deriving Repr, DecidableEq

structure S3FileParam where
  path : Option String := none
  isDirectory : Option Bool := none
  deriving Repr, DecidableEq

structure S3BucketRestoreConfig where
  bucketName : Option String := none
  keyPrefix : Option String := none
  kmsKeyId : Option String := none
  deriving Repr, DecidableEq

structure S3FileRestoreConfig where
  bucketName : Option String := none
  keyPrefix : Option String := none
  kmsKeyId : Option String := none
  files : Option (List S3FileParam) := none
  deriving Repr, DecidableEq

/-- `RestoreJobResourceModel` fields consumed by the dispatch and the target
builders. -/
structure RestoreJobResourceModel where
  restoreType : String
  snapshotId : String := ""
  restoreAccountId : String := ""
  ebsConfig : Option EbsRestoreConfig := none
  ec2Config : Option Ec2RestoreConfig := none
  rdsConfig : Option RdsRestoreConfig := none
  s3BucketConfig : Option S3BucketRestoreConfig := none
  s3FileConfig : Option S3FileRestoreConfig := none
  deriving Repr, DecidableEq

/-- SDK `VolumeSettings`. -/
structure VolumeSettings where
  type : String
  sizeBytes : Int
  iops : Option Int := none
  throughput : Option Int := none
  deriving Repr, DecidableEq

structure EbsTarget where
  availabilityZone : String
  volumeEncryptionKeyId : String
  volumeSettings : VolumeSettings
  description : Option String := none
  tags : Option (List (String × String)) := none
  deriving Repr, DecidableEq

structure RestoreVolumeToEbsRequest where
  providerVolumeId : String
  restoreAccountId : String
  awsEbs : EbsTarget
  deriving Repr, DecidableEq

structure RestoreInstanceVolumeInput where
  providerVolumeId : String
  volumeSettings : VolumeSettings
  volumeEncryptionKeyId : String := ""
  description : Option String := none
  deriving Repr, DecidableEq

structure Ec2InstanceRestoreTarget where
  region : String
  instanceType : String
  subnetId : String
  volumeRestoreParameters : List RestoreInstanceVolumeInput
  securityGroupIds : List String := []
  tags : Option (List (String × String)) := none
  deriving Repr, DecidableEq

structure RestoreInstanceInput where
  restoreAccountId : String
  awsEc2 : Ec2InstanceRestoreTarget
  deriving Repr, DecidableEq

structure AwsDatabaseDestination where
  restoreRegion : String
  restoredName : String
  instanceClass : String
  engine : String
  encryptionKeyId : String
  subnetGroup : Option String := none
  securityGroups : List String := []
  tags : Option (List (String × String)) := none
  deriving Repr, DecidableEq

structure RestoreDbToRdsInstanceRequest where
  restoreAccountId : String
  awsRds : AwsDatabaseDestination
  deriving Repr, DecidableEq

structure S3RestoreTarget where
  bucketName : String
  keyPrefix : Option String := none
  encryptionKeyId : Option String := none
  deriving Repr, DecidableEq

structure RestoreBucketRequest where
  restoreAccountId : String
  s3Bucket : S3RestoreTarget
  deriving Repr, DecidableEq

structure FilePath where
  path : String
  isDirectory : Bool
  deriving Repr, DecidableEq

structure RestoreFilesRequest where
  restoreAccountId : String
  files : List FilePath
  s3Bucket : S3RestoreTarget
  deriving Repr, DecidableEq

/-- The `if !x.IsNull() { v, err := SafeInt32Conversion(...); if err != nil
return err }` pattern used for the optional `iops`/`throughput` fields. -/
def optSafeInt32 : Option Int → Except String (Option Int)
  | none => .ok none
  | some v => (SafeInt32Conversion v).map some

/-- `createEbsVolumeRestore` (restore_job_resource.go:561-636): validates the
required `ebs_config` sub-fields, then builds the request; the top-level
`volume_size` is written to `SizeBytes` unchanged. -/
def createEbsVolumeRestore (data : RestoreJobResourceModel) (config : EbsRestoreConfig) :
    Except String RestoreVolumeToEbsRequest :=
  if strNullOrEmpty config.providerVolumeId then
    .error "provider_volume_id is required for EBS volume restore"
  else if strNullOrEmpty config.availabilityZone then
    .error "availability_zone is required for EBS volume restore"
  else if strNullOrEmpty config.volumeType then
    .error "volume_type is required for EBS volume restore"
  else if config.volumeSize.getD 0 = 0 then
    .error "volume_size is required for EBS volume restore"
  else
    match optSafeInt32 config.iops with
    | .error e => .error e
    | .ok iops =>
      match optSafeInt32 config.throughput with
      | .error e => .error e
      | .ok throughput =>
        .ok { providerVolumeId := config.providerVolumeId.getD ""
              restoreAccountId := data.restoreAccountId
              awsEbs := { availabilityZone := config.availabilityZone.getD ""
                          volumeEncryptionKeyId := config.volumeEncryptionKeyId.getD ""
                          volumeSettings :=
                            { type := config.volumeType.getD ""
                              sizeBytes := config.volumeSize.getD 0
                              iops := iops
                              throughput := throughput }
                          description := config.description
                          tags := config.tags } }

/-- One iteration of the `volume_restore_params` loop of
`createEc2InstanceRestore`: `volume_size` is multiplied by `1024*1024*1024`
("Convert GiB to bytes") with Go's wrapping int64 product. -/
def buildEc2VolumeInput (volParam : VolumeRestoreParam) :
    Except String RestoreInstanceVolumeInput :=
  match optSafeInt32 volParam.iops with
  | .error e => .error e
  | .ok iops =>
    match optSafeInt32 volParam.throughput with
    | .error e => .error e
    | .ok throughput =>
      .ok { providerVolumeId := volParam.providerVolumeId.getD ""
            volumeSettings :=
              { type := volParam.volumeType.getD ""
                sizeBytes := goInt64Mul (volParam.volumeSize.getD 0) (1024 * 1024 * 1024)
                iops := iops
                throughput := throughput }
            volumeEncryptionKeyId :=
              if strNullOrEmpty volParam.kmsKeyId then "" else volParam.kmsKeyId.getD ""
            description :=
              if strNullOrEmpty volParam.description then none else volParam.description }

/-- The `volume_restore_params` loop of `createEc2InstanceRestore`: builds the
volume inputs in order, stopping at the first conversion error. -/
def buildEc2VolumeInputs : List VolumeRestoreParam → Except String (List RestoreInstanceVolumeInput)
  | [] => .ok []
  | volParam :: rest =>
    match buildEc2VolumeInput volParam with
    | .error e => .error e
    | .ok v =>
      match buildEc2VolumeInputs rest with
      | .error e => .error e
      | .ok vs => .ok (v :: vs)

/-- `createEc2InstanceRestore` (restore_job_resource.go:638-749): validates
the required `ec2_config` sub-fields and builds one volume input per
`volume_restore_params` entry. -/
def createEc2InstanceRestore (data : RestoreJobResourceModel) (config : Ec2RestoreConfig) :
    Except String RestoreInstanceInput :=
  if strNullOrEmpty config.region then
    .error "region is required for EC2 instance restore"
  else if strNullOrEmpty config.instanceType then
    .error "instance_type is required for EC2 instance restore"
  else if strNullOrEmpty config.subnetId then
    .error "subnet_id is required for EC2 instance restore"
  else if config.volumeRestoreParams.getD [] = [] then
    .error "volume_restore_params is required for EC2 instance restore"
  else
    match buildEc2VolumeInputs (config.volumeRestoreParams.getD []) with
    | .error e => .error e
    | .ok volumeParams =>
      .ok { restoreAccountId := data.restoreAccountId
            awsEc2 := { region := config.region.getD ""
                        instanceType := config.instanceType.getD ""
                        subnetId := config.subnetId.getD ""
                        volumeRestoreParameters := volumeParams
                        securityGroupIds := config.securityGroupIds.getD []
                        tags := config.tags } }

/-- `createRdsRestore` (restore_job_resource.go:751-822). -/
def createRdsRestore (data : RestoreJobResourceModel) (config : RdsRestoreConfig) :
    Except String RestoreDbToRdsInstanceRequest := do
  if strNullOrEmpty config.dbInstanceIdentifier then
    throw "db_instance_identifier is required for RDS restore"
  if strNullOrEmpty config.dbInstanceClass then
    throw "db_instance_class is required for RDS restore"
  if strNullOrEmpty config.engine then
    throw "engine is required for RDS restore"
  if strNullOrEmpty config.region then
    throw "region is required for RDS restore"
  if strNullOrEmpty config.kmsKeyId then
    throw "kms_key_id is required for RDS restore"
  pure { restoreAccountId := data.restoreAccountId
         awsRds := { restoreRegion := config.region.getD ""
                     restoredName := config.dbInstanceIdentifier.getD ""
                     instanceClass := config.dbInstanceClass.getD ""
                     engine := config.engine.getD ""
                     encryptionKeyId := config.kmsKeyId.getD ""
                     subnetGroup := config.subnetGroupName
                     securityGroups := config.vpcSecurityGroupIds.getD []
                     tags := config.tags } }

/-- `createS3BucketRestore` (restore_job_resource.go:824-854). -/
def createS3BucketRestore (data : RestoreJobResourceModel) (config : S3BucketRestoreConfig) :
    Except String RestoreBucketRequest := do
  if strNullOrEmpty config.bucketName then
    throw "bucket_name is required for S3 bucket restore"
  pure { restoreAccountId := data.restoreAccountId
         s3Bucket := { bucketName := config.bucketName.getD ""
                       keyPrefix := config.keyPrefix
                       encryptionKeyId := config.kmsKeyId } }

/-- `createS3FileRestore` (restore_job_resource.go:856-910). -/
def createS3FileRestore (data : RestoreJobResourceModel) (config : S3FileRestoreConfig) :
    Except String RestoreFilesRequest := do
  if strNullOrEmpty config.bucketName then
    throw "bucket_name is required for S3 file restore"
  if config.files.getD [] = [] then
    throw "files is required for S3 file restore"
  let files := (config.files.getD []).map fun file =>
    { path := file.path.getD "", isDirectory := file.isDirectory.getD false : FilePath }
  pure { restoreAccountId := data.restoreAccountId
         files := files
         s3Bucket := { bucketName := config.bucketName.getD ""
                       keyPrefix := config.keyPrefix
                       encryptionKeyId := config.kmsKeyId } }

/-- Which remote restore endpoint `RestoreJobResource.Create` submits to,
with the request it built. -/
inductive RestoreSubmission where
  | ebs (req : RestoreVolumeToEbsRequest)
  | ec2 (req : RestoreInstanceInput)
  | rds (req : RestoreDbToRdsInstanceRequest)
  | s3Bucket (req : RestoreBucketRequest)
  | s3Files (req : RestoreFilesRequest)
  deriving Repr, DecidableEq

/-- Dispatch section of `RestoreJobResource.Create`
(restore_job_resource.go:469-516): validates `restore_type`, then selects the
target builder from the snapshotted resource's type and `restore_type`,
failing with an error naming the missing config block before any builder or
remote call runs. -/
def restoreJobDispatch (resourceType : String) (data : RestoreJobResourceModel) :
    Except String RestoreSubmission :=
  if data.restoreType ≠ "full" ∧ data.restoreType ≠ "partial" then
    .error ("Invalid restore_type: " ++ data.restoreType ++ ". Supported types: full, partial")
  else if resourceType = "AWS_EC2" then
    if data.restoreType = "partial" then
      match data.ebsConfig with
      | none => .error "ebs_config is required when restoring AWS EC2 volumes with restore_type 'partial'"
      | some config => (createEbsVolumeRestore data config).map RestoreSubmission.ebs
    else
      match data.ec2Config with
      | none => .error "ec2_config is required when restoring AWS EC2 instances with restore_type 'full'"
      | some config => (createEc2InstanceRestore data config).map RestoreSubmission.ec2
  else if resourceType = "AWS_RDS" then
    match data.rdsConfig with
    | none => .error "rds_config is required when restoring AWS RDS databases"
    | some config => (createRdsRestore data config).map RestoreSubmission.rds
  else if resourceType = "AWS_S3" then
    if data.restoreType = "full" then
      match data.s3BucketConfig with
      | none => .error "s3_bucket_config is required when restoring AWS S3 buckets with restore_type 'full'"
      | some config => (createS3BucketRestore data config).map RestoreSubmission.s3Bucket
    else
      match data.s3FileConfig with
      | none => .error "s3_file_config is required when restoring AWS S3 files with restore_type 'partial'"
      | some config => (createS3FileRestore data config).map RestoreSubmission.s3Files
  else
    .error ("Unsupported resource type: " ++ resourceType ++
      ". Supported types: AWS_EC2, AWS_RDS, AWS_S3. Please provide one of: ebs_config, ec2_config, rds_config, s3_bucket_config, or s3_file_config")

/-! ## Restore-job polling (`client.go` WaitForRestoreJobCompletion and the
wait section of `RestoreJobResource.Create`) -/

/-- Remote `JobExecutionDetails`; `status = none` models the unset-status
guard (`Status.Ptr() == nil`). -/
structure JobExecutionDetails where
  status : Option String := none
  statusMessage : Option String := none
  createdTime : String := ""
  startTime : Option String := none
  endTime : Option String := none
  durationSeconds : Option Int := none
  deriving Repr, DecidableEq

structure RestoreJob where
  details : JobExecutionDetails
  deriving Repr, DecidableEq

/-- `EonClient.WaitForRestoreJobCompletion` (client.go:367-400). `fetch i` is
the result of the `GetRestoreJob` call at the i-th ticker fire; `ticks` is how
many ticker fires the context deadline (`timeout`, one tick per 10s) still
allows: with no tick left the `ctx.Done()` branch returns the timeout error.
`JOB_COMPLETED`/`JOB_PARTIAL` succeed, `JOB_FAILED`/`JOB_CANCELLED` fail with
the remote status message, anything else (or an unset status) polls again. -/
def waitForRestoreJobCompletion (jobId : String) (fetch : Nat → Except String RestoreJob) :
    Nat → Nat → Except String RestoreJob
  | 0, _ => .error ("timeout waiting for restore job " ++ jobId ++ " to complete")
  | ticks + 1, i =>
    match fetch i with
    | .error e => .error ("failed to get restore job status: " ++ e)
    | .ok job =>
      match job.details.status with
      | none => waitForRestoreJobCompletion jobId fetch ticks (i + 1)
      | some s =>
        if s = "JOB_COMPLETED" ∨ s = "JOB_PARTIAL" then
          .ok job
        else if s = "JOB_FAILED" ∨ s = "JOB_CANCELLED" then
          .error ("restore job failed with status: " ++ s ++ ", error: " ++
            (job.details.statusMessage.getD "unknown error"))
        else
          waitForRestoreJobCompletion jobId fetch ticks (i + 1)

/-- Whether one poll outcome keeps the loop running (fetch succeeded and the
status is unset or non-terminal). -/
def continuesPolling : Except String RestoreJob → Bool
  | .error _ => false
  | .ok job =>
    match job.details.status with
    | none => true
    | some s =>
      !(s == "JOB_COMPLETED" || s == "JOB_PARTIAL" || s == "JOB_FAILED" || s == "JOB_CANCELLED")

/-- Job-status fields of the tracked restore-job state. -/
structure RestoreJobState where
  status : String := ""
  statusMessage : Option String := none
  createdAt : String := ""
  startedAt : Option String := none
  completedAt : Option String := none
  durationSeconds : Option Int := none
  deriving Repr, DecidableEq

/-- `RestoreJobResource.updateJobStatus` (restore_job_resource.go:912-939):
copies every status field of the fetched job into the tracked state. -/
def updateJobStatus (data : RestoreJobState) (job : RestoreJob) : RestoreJobState :=
  { data with
    status := job.details.status.getD ""
    createdAt := job.details.createdTime
    statusMessage := job.details.statusMessage
    startedAt := job.details.startTime
    completedAt := job.details.endTime
    durationSeconds := job.details.durationSeconds }

/-- Wait section of `RestoreJobResource.Create` (restore_job_resource.go:
540-556): on a wait error the state records the error message and
`JOB_FAILED`, then one final `GetRestoreJob` is attempted and, when it
succeeds, its fields overwrite the state best-effort; on wait success the
final job populates the state directly. -/
def restoreJobCreateWaitSection (data : RestoreJobState)
    (waitResult : Except String RestoreJob) (finalFetch : Except String RestoreJob) :
    RestoreJobState :=
  match waitResult with
  | .ok finalJob => updateJobStatus data finalJob
  | .error e =>
    let withErr := { data with statusMessage := some e, status := "JOB_FAILED" }
    match finalFetch with
    | .ok actualJob => updateJobStatus withErr actualJob
    | .error _ => withErr

/-! ## Concrete sample values used by counterexamples and witnesses -/

def envCondEx : EnvironmentConditionModel :=
  { operator := "IN", environments := ["production"] }

def rtCondEx : ResourceTypeConditionModel :=
  { operator := "IN", resourceTypes := ["AWS_EC2"] }

/-- An expression document with two populated condition keys. -/
def twoKeyExprEx : ExpressionModel :=
  { environment := some envCondEx, resourceType := some rtCondEx }

/-- An expression document whose only condition has an empty value list. -/
def emptyEnvExprEx : ExpressionModel :=
  { environment := some { operator := "IN", environments := [] } }

/-- An expression document whose only condition is a group with no operands. -/
def emptyGroupExprEx : ExpressionModel :=
  { group := some { operator := "AND", operands := [] } }

/-- A `resource_selector` in CONDITIONAL mode with no expression. -/
def conditionalNoExprSelector : ResourceSelectorModel :=
  { resourceSelectionMode := "CONDITIONAL", expression := none }

/-- A Standard-plan schedule declaring an interval of 400 minutes. -/
def stdIntervalScheduleEx : ScheduleConfigAttrs :=
  { frequency := some "INTERVAL", intervalConfig := some { intervalMinutes := 400 } }

/-! ## C1 — exclusivity of expression condition keys -/

/-- C1 counterexample: an expression document with two populated condition
keys (`environment` and `resource_type`) translates successfully — the
translator takes the first populated key instead of failing. -/
theorem C1_counterexample_two_keys_accepted :
    twoKeyExprEx.environment.isSome = true ∧
    twoKeyExprEx.resourceType.isSome = true ∧
    createBackupPolicyExpression (some twoKeyExprEx) = .ok { environment := some envCondEx } :=
  ⟨rfl, rfl, rfl⟩

/-- C1 (amended): translation fails iff none of the five recognized condition
keys (`environment`, `resource_type`, `tag_key_values`, `tag_keys`, `group`)
is populated (or the expression itself is null); when several are populated
the first in that fixed probe order wins and the rest are silently ignored. -/
theorem C1_first_condition_wins (e : ExpressionModel) :
    exceptOk (createBackupPolicyExpression none) = false ∧
    (exceptOk (createBackupPolicyExpression (some e)) = true ↔
      (e.environment.isSome = true ∨ e.resourceType.isSome = true ∨
        e.tagKeyValues.isSome = true ∨ e.tagKeys.isSome = true ∨ e.group.isSome = true)) ∧
    (∀ c, e.environment = some c →
      createBackupPolicyExpression (some e) = .ok { environment := some c }) := by
  refine ⟨rfl, ?_, ?_⟩
  · cases he : e.environment <;> cases hr : e.resourceType <;>
      cases htv : e.tagKeyValues <;> cases htk : e.tagKeys <;> cases hg : e.group <;>
      simp [createBackupPolicyExpression, exceptOk, he, hr, htv, htk, hg]
  · intro c hc
    simp [createBackupPolicyExpression, hc]

/-- C1 witness: the amended theorem applied to the two-key document. -/
theorem C1_first_condition_wins_witness :
    createBackupPolicyExpression (some twoKeyExprEx) = .ok { environment := some envCondEx } :=
  (C1_first_condition_wins twoKeyExprEx).2.2 envCondEx rfl

/-! ## C2 — non-empty value/operand lists -/

/-- C2 counterexample: a leaf with an empty value list and a group with an
empty operand list both translate successfully instead of failing. -/
theorem C2_counterexample_empty_lists_accepted :
    createBackupPolicyExpression (some emptyEnvExprEx) =
      .ok { environment := some { operator := "IN", environments := [] } } ∧
    createBackupPolicyExpression (some emptyGroupExprEx) =
      .ok { group := some { operator := "AND", operands := [] } } :=
  ⟨rfl, rfl⟩

/-- C2 (amended): the translator performs no emptiness validation — for every
operator and value list (the empty list included) a leaf condition is passed
through verbatim, and for every operand list (the empty list included) a group
is passed through with its operands mapped structurally. -/
theorem C2_no_emptiness_validation (op : String) (vals : List String)
    (gop : String) (ops : List OperandModel) :
    createBackupPolicyExpression
        (some { environment := some { operator := op, environments := vals } }) =
      .ok { environment := some { operator := op, environments := vals } } ∧
    createBackupPolicyExpression (some { group := some { operator := gop, operands := ops } }) =
      .ok { group := some { operator := gop, operands := ops.map buildOperandExpr } } :=
  ⟨rfl, rfl⟩

/-! ## C3 — CONDITIONAL selector with no expression -/

/-- C3: the guard inside `createBackupPolicyExpression` does reject a null
expression with the documented message, but the `Create`/`Update` selector
translation only invokes it when the `expression` attribute is populated, so a
CONDITIONAL selector with no expression translates successfully — the request
is sent without any expression instead of failing validation. -/
theorem C3_conditional_without_expression_not_rejected :
    translateResourceSelector conditionalNoExprSelector = .ok { mode := "CONDITIONAL" } ∧
    createBackupPolicyExpression none =
      .error "expression is required for CONDITIONAL resource selection mode" :=
  ⟨rfl, rfl⟩

/-! ## C4 — interval rounding -/

/-- C4 counterexample: a Standard/PITR interval schedule of 400 minutes is not
rounded up to the 8-hour tier — `createStandardScheduleConfig` rejects the
INTERVAL frequency outright, and the high-frequency translator passes the 400
through unchanged. -/
theorem C4_counterexample_no_rounding :
    createStandardScheduleConfig stdIntervalScheduleEx =
      .error "unsupported schedule frequency: INTERVAL" ∧
    createHighFrequencyScheduleConfig stdIntervalScheduleEx =
      .ok { frequency := some "INTERVAL", intervalConfig := some { intervalMinutes := 400 } } :=
  ⟨rfl, rfl⟩

/-- C4 (amended): the Standard/PITR schedule translator accepts only the DAILY
frequency and rejects every INTERVAL schedule as unsupported (no interval-hours
value is ever produced), and the high-frequency translator passes any
int32-range minute count through unchanged — no {6, 8, 12} tiering exists. -/
theorem C4_no_interval_tiering (s : ScheduleConfigAttrs) (m : Int) :
    (s.frequency = some "INTERVAL" →
      createStandardScheduleConfig s = .error "unsupported schedule frequency: INTERVAL") ∧
    (-2147483648 ≤ m → m ≤ 2147483647 →
      createHighFrequencyScheduleConfig
          { frequency := some "INTERVAL", intervalConfig := some { intervalMinutes := m } } =
        .ok { frequency := some "INTERVAL", intervalConfig := some { intervalMinutes := m } }) := by
  constructor
  · intro h
    simp [createStandardScheduleConfig, h]
  · intro h1 h2
    have hrange : ¬(m < -2147483648 ∨ m > 2147483647) := by omega
    simp [createHighFrequencyScheduleConfig, errCtx, SafeInt32Conversion, hrange]

/-- C4 witness: the amended theorem applied at the spec's 481-minute boundary
value. -/
theorem C4_no_interval_tiering_witness :
    createStandardScheduleConfig stdIntervalScheduleEx =
      .error "unsupported schedule frequency: INTERVAL" ∧
    createHighFrequencyScheduleConfig
        { frequency := some "INTERVAL", intervalConfig := some { intervalMinutes := 481 } } =
      .ok { frequency := some "INTERVAL", intervalConfig := some { intervalMinutes := 481 } } :=
  ⟨(C4_no_interval_tiering stdIntervalScheduleEx 481).1 rfl,
    (C4_no_interval_tiering stdIntervalScheduleEx 481).2 (by decide) (by decide)⟩

/-! ## C5 — restore-job dispatch table -/

/-- C5: the dispatch selects exactly the documented builder for each
(source resource type, restore_type) pair — EC2+partial → Ebs, EC2+full → Ec2,
RDS+either → Rds, S3+full → S3Bucket, S3+partial → S3Files — and when the
corresponding config block is absent it fails with the error naming that block
without invoking any builder or remote call. -/
theorem C5_restore_dispatch (d : RestoreJobResourceModel) :
    (d.restoreType = "partial" → d.ebsConfig = none →
      restoreJobDispatch "AWS_EC2" d =
        .error "ebs_config is required when restoring AWS EC2 volumes with restore_type 'partial'") ∧
    (∀ c, d.restoreType = "partial" → d.ebsConfig = some c →
      restoreJobDispatch "AWS_EC2" d = (createEbsVolumeRestore d c).map RestoreSubmission.ebs) ∧
    (d.restoreType = "full" → d.ec2Config = none →
      restoreJobDispatch "AWS_EC2" d =
        .error "ec2_config is required when restoring AWS EC2 instances with restore_type 'full'") ∧
    (∀ c, d.restoreType = "full" → d.ec2Config = some c →
      restoreJobDispatch "AWS_EC2" d = (createEc2InstanceRestore d c).map RestoreSubmission.ec2) ∧
    ((d.restoreType = "full" ∨ d.restoreType = "partial") → d.rdsConfig = none →
      restoreJobDispatch "AWS_RDS" d =
        .error "rds_config is required when restoring AWS RDS databases") ∧
    (∀ c, (d.restoreType = "full" ∨ d.restoreType = "partial") → d.rdsConfig = some c →
      restoreJobDispatch "AWS_RDS" d = (createRdsRestore d c).map RestoreSubmission.rds) ∧
    (d.restoreType = "full" → d.s3BucketConfig = none →
      restoreJobDispatch "AWS_S3" d =
        .error "s3_bucket_config is required when restoring AWS S3 buckets with restore_type 'full'") ∧
    (∀ c, d.restoreType = "full" → d.s3BucketConfig = some c →
      restoreJobDispatch "AWS_S3" d = (createS3BucketRestore d c).map RestoreSubmission.s3Bucket) ∧
    (d.restoreType = "partial" → d.s3FileConfig = none →
      restoreJobDispatch "AWS_S3" d =
        .error "s3_file_config is required when restoring AWS S3 files with restore_type 'partial'") ∧
    (∀ c, d.restoreType = "partial" → d.s3FileConfig = some c →
      restoreJobDispatch "AWS_S3" d = (createS3FileRestore d c).map RestoreSubmission.s3Files) := by
  refine ⟨?_, ?_, ?_, ?_, ?_, ?_, ?_, ?_, ?_, ?_⟩
  · intro ht hc; simp [restoreJobDispatch, ht, hc]
  · intro c ht hc; simp [restoreJobDispatch, ht, hc]
  · intro ht hc; simp [restoreJobDispatch, ht, hc]
  · intro c ht hc; simp [restoreJobDispatch, ht, hc]
  · rintro (ht | ht) hc <;> simp [restoreJobDispatch, ht, hc]
  · rintro c (ht | ht) hc <;> simp [restoreJobDispatch, ht, hc]
  · intro ht hc; simp [restoreJobDispatch, ht, hc]
  · intro c ht hc; simp [restoreJobDispatch, ht, hc]
  · intro ht hc; simp [restoreJobDispatch, ht, hc]
  · intro c ht hc; simp [restoreJobDispatch, ht, hc]

/-- C5 witness: the dispatch theorem applied at a concrete partial restore
with no `ebs_config` and at a concrete full restore with no `ec2_config`. -/
theorem C5_restore_dispatch_witness :
    restoreJobDispatch "AWS_EC2" { restoreType := "partial" } =
      .error "ebs_config is required when restoring AWS EC2 volumes with restore_type 'partial'" ∧
    restoreJobDispatch "AWS_EC2" { restoreType := "full" } =
      .error "ec2_config is required when restoring AWS EC2 instances with restore_type 'full'" ∧
    restoreJobDispatch "AWS_RDS" { restoreType := "full" } =
      .error "rds_config is required when restoring AWS RDS databases" ∧
    restoreJobDispatch "AWS_S3" { restoreType := "full" } =
      .error "s3_bucket_config is required when restoring AWS S3 buckets with restore_type 'full'" ∧
    restoreJobDispatch "AWS_S3" { restoreType := "partial" } =
      .error "s3_file_config is required when restoring AWS S3 files with restore_type 'partial'" :=
  ⟨(C5_restore_dispatch { restoreType := "partial" }).1 rfl rfl,
    (C5_restore_dispatch { restoreType := "full" }).2.2.1 rfl rfl,
    (C5_restore_dispatch { restoreType := "full" }).2.2.2.2.1 (Or.inl rfl) rfl,
    (C5_restore_dispatch { restoreType := "full" }).2.2.2.2.2.2.1 rfl rfl,
    (C5_restore_dispatch { restoreType := "partial" }).2.2.2.2.2.2.2.2.1 rfl rfl⟩

/-! ## C10 — volume-size units of the two volume builders -/

/-- Each successfully built EC2 volume input carries the wrapping int64
product of the declared `volume_size` and `1024*1024*1024`. -/
theorem buildEc2VolumeInput_sizeBytes (p : VolumeRestoreParam)
    (v : RestoreInstanceVolumeInput) (h : buildEc2VolumeInput p = .ok v) :
    v.volumeSettings.sizeBytes = goInt64Mul (p.volumeSize.getD 0) (1024 * 1024 * 1024) := by
  unfold buildEc2VolumeInput at h
  split at h
  · exact absurd h (by simp)
  · split at h
    · exact absurd h (by simp)
    · cases h
      rfl

/-- Lifting of `buildEc2VolumeInput_sizeBytes` over the whole parameter
list. -/
theorem buildEc2VolumeInputs_sizeBytes :
    ∀ (l : List VolumeRestoreParam) (l' : List RestoreInstanceVolumeInput),
      buildEc2VolumeInputs l = .ok l' →
      l'.map (fun v => v.volumeSettings.sizeBytes) =
        l.map (fun p => goInt64Mul (p.volumeSize.getD 0) (1024 * 1024 * 1024)) := by
  intro l
  induction l with
  | nil =>
    intro l' h
    unfold buildEc2VolumeInputs at h
    cases h
    rfl
  | cons p ps ih =>
    intro l' h
    unfold buildEc2VolumeInputs at h
    cases hp : buildEc2VolumeInput p with
    | error e => rw [hp] at h; exact absurd h (by simp)
    | ok v =>
      rw [hp] at h
      cases hps : buildEc2VolumeInputs ps with
      | error e => rw [hps] at h; exact absurd h (by simp)
      | ok vs =>
        rw [hps] at h
        cases h
        simp [buildEc2VolumeInput_sizeBytes p v hp, ih vs hps]

/-- C10: the two volume builders use different units for the same input name —
every EC2 full-instance volume entry sends `volume_size * 1024*1024*1024` as
`SizeBytes` (GiB→bytes, with Go's wrapping int64 product), while the EBS
partial-restore builder sends the top-level `volume_size` as `SizeBytes`
unchanged (bytes). -/
theorem C10_volume_size_units (d : RestoreJobResourceModel) :
    (∀ (c : EbsRestoreConfig) (req : RestoreVolumeToEbsRequest),
      createEbsVolumeRestore d c = .ok req →
      req.awsEbs.volumeSettings.sizeBytes = c.volumeSize.getD 0) ∧
    (∀ (c : Ec2RestoreConfig) (req : RestoreInstanceInput),
      createEc2InstanceRestore d c = .ok req →
      req.awsEc2.volumeRestoreParameters.map (fun v => v.volumeSettings.sizeBytes) =
        (c.volumeRestoreParams.getD []).map
          (fun p => goInt64Mul (p.volumeSize.getD 0) (1024 * 1024 * 1024))) := by
  constructor
  · intro c req h
    unfold createEbsVolumeRestore at h
    repeat' split at h
    all_goals cases h
    all_goals rfl
  · intro c req h
    unfold createEc2InstanceRestore at h
    repeat' split at h
    all_goals cases h
    all_goals exact buildEc2VolumeInputs_sizeBytes _ _ (by assumption)

/-- Concrete EBS config used by the C10 witness. -/
def ebsCfgEx : EbsRestoreConfig :=
  { providerVolumeId := some "vol-0abc", availabilityZone := some "us-east-1a"
    volumeType := some "gp3", volumeSize := some 5 }

/-- Concrete EC2 config used by the C10 witness. -/
def ec2CfgEx : Ec2RestoreConfig :=
  { region := some "us-east-1", instanceType := some "t3.micro", subnetId := some "subnet-1"
    volumeRestoreParams := some [{ providerVolumeId := some "vol-0def"
                                   volumeType := some "gp3", volumeSize := some 8 }] }

def restoreDataEx : RestoreJobResourceModel :=
  { restoreType := "partial", restoreAccountId := "acct-1" }

/-- Request `createEbsVolumeRestore` builds from `ebsCfgEx`. -/
def ebsReqEx : RestoreVolumeToEbsRequest :=
  { providerVolumeId := "vol-0abc", restoreAccountId := "acct-1"
    awsEbs := { availabilityZone := "us-east-1a", volumeEncryptionKeyId := ""
                volumeSettings := { type := "gp3", sizeBytes := 5 } } }

/-- Request `createEc2InstanceRestore` builds from `ec2CfgEx`. -/
def ec2ReqEx : RestoreInstanceInput :=
  { restoreAccountId := "acct-1"
    awsEc2 := { region := "us-east-1", instanceType := "t3.micro", subnetId := "subnet-1"
                volumeRestoreParameters :=
                  [{ providerVolumeId := "vol-0def"
                     volumeSettings := { type := "gp3", sizeBytes := 8589934592 } }] } }

/-- C10 witness: the units theorem applied at concrete configs — the EBS
request keeps 5 bytes, the EC2 request turns 8 GiB into 8589934592 bytes. -/
theorem C10_volume_size_units_witness :
    ebsReqEx.awsEbs.volumeSettings.sizeBytes = ebsCfgEx.volumeSize.getD 0 ∧
    ec2ReqEx.awsEc2.volumeRestoreParameters.map (fun v => v.volumeSettings.sizeBytes) =
      (ec2CfgEx.volumeRestoreParams.getD []).map
        (fun p => goInt64Mul (p.volumeSize.getD 0) (1024 * 1024 * 1024)) :=
  ⟨(C10_volume_size_units restoreDataEx).1 ebsCfgEx ebsReqEx (by rfl),
    (C10_volume_size_units restoreDataEx).2 ec2CfgEx ec2ReqEx (by rfl)⟩

/-! ## C6 — read of a missing policy -/

/-- Tracked state used by the C6/C9 theorems. -/
def policyStateEx : BackupPolicyState :=
  { id := "pol-1", name := "nightly", enabled := true
    createdAt := "2024-01-01T00:00:00Z", updatedAt := "2024-03-01T00:00:00Z" }

/-- Placeholder decoded body of an error response. -/
def emptyPolicy : BackupPolicy := { id := "", name := "", enabled := false }

/-- C6 counterexample: a read whose remote reports 404 surfaces an error
diagnostic and keeps the tracked state — the resource is not removed and an
error is shown to the user. -/
theorem C6_counterexample_not_found_read_errors :
    backupPolicyRead policyStateEx (.response 404 "policy not found" emptyPolicy)
        "2025-01-02T00:00:00Z" =
      .errorDiag "Unable to read backup policy: API error 404: policy not found" policyStateEx ∧
    (backupPolicyRead policyStateEx (.response 404 "policy not found" emptyPolicy)
        "2025-01-02T00:00:00Z").isRemoved = false ∧
    (backupPolicyRead policyStateEx (.response 404 "policy not found" emptyPolicy)
        "2025-01-02T00:00:00Z").isError = true :=
  ⟨rfl, rfl, rfl⟩

/-- C6 (amended): the backup-policy `Read` never removes the resource from
tracked state; a remote not-found (404) is wrapped into an `API error 404`
client error diagnostic and the prior state is kept. (The account resources,
not the backup policy, are the ones that drop state on absence.) -/
theorem C6_read_errors_on_not_found (st : BackupPolicyState)
    (r : HttpResult BackupPolicy) (now body : String) (p : BackupPolicy) :
    (backupPolicyRead st r now).isRemoved = false ∧
    (r = .response 404 body p →
      backupPolicyRead st r now =
        .errorDiag ("Unable to read backup policy: API error 404: " ++ body) st) := by
  constructor
  · cases hc : clientGetBackupPolicy r <;>
      simp [backupPolicyRead, hc, ReadOutcome.isRemoved]
  · intro hr
    subst hr
    have h404 : (toString (404 : Nat)) = "404" := rfl
    simp only [backupPolicyRead, clientGetBackupPolicy]
    norm_num
    simp only [h404, ← String.append_assoc]
    rfl

/-- C6 witness: the amended theorem applied to a concrete 404 response. -/
theorem C6_read_errors_on_not_found_witness :
    backupPolicyRead policyStateEx (.response 404 "gone" emptyPolicy) "2025-01-02T00:00:00Z" =
      .errorDiag "Unable to read backup policy: API error 404: gone" policyStateEx :=
  (C6_read_errors_on_not_found policyStateEx (.response 404 "gone" emptyPolicy)
    "2025-01-02T00:00:00Z" "gone" emptyPolicy).2 rfl

/-! ## C7 — delete of an already-absent policy -/

/-- C7 counterexample: deleting a policy the remote already reports missing
(404) surfaces an error — the second delete of the same id does not succeed. -/
theorem C7_counterexample_not_found_delete_errors :
    backupPolicyDelete (.response 404 "policy not found" ()) =
      .error "Unable to delete backup policy: API error 404: policy not found" ∧
    exceptOk (backupPolicyDelete (.response 404 "policy not found" ())) = false :=
  ⟨rfl, rfl⟩

/-- C7 (amended): the delete path succeeds exactly when the remote answers
200 or 204; a not-found (404) — the already-absent case — is surfaced as an
`API error` diagnostic, so deleting the same id twice errors on the second
call. -/
theorem C7_delete_not_idempotent (status : Nat) (body : String) :
    (exceptOk (backupPolicyDelete (.response status body ())) = true ↔
      (status = 200 ∨ status = 204)) ∧
    backupPolicyDelete (.response 404 body ()) =
      .error ("Unable to delete backup policy: API error 404: " ++ body) := by
  constructor
  · by_cases h : status = 200 ∨ status = 204
    · have hneg : ¬(status ≠ 200 ∧ status ≠ 204) := by tauto
      simp [backupPolicyDelete, clientDeleteBackupPolicy, hneg, exceptOk, h]
    · have hpos : status ≠ 200 ∧ status ≠ 204 := by tauto
      simp [backupPolicyDelete, clientDeleteBackupPolicy, hpos, exceptOk, h]
  · have h404 : (toString (404 : Nat)) = "404" := rfl
    simp only [backupPolicyDelete, clientDeleteBackupPolicy]
    norm_num
    simp only [h404, ← String.append_assoc]
    rfl

/-! ## C9 — created_at across Update -/

/-- Remote reply used by the C9 theorems. -/
def updatedPolicyEx : BackupPolicy := { id := "pol-1", name := "nightly-v2", enabled := false }

/-- C9 counterexample: after a successful update at a later wall-clock time,
the recorded `created_at` differs from the pre-update state's `created_at` —
it is restamped, not preserved. -/
theorem C9_counterexample_created_at_changes :
    (backupPolicyUpdateState policyStateEx policyStateEx updatedPolicyEx
        "2025-06-30T12:00:00Z").createdAt = "2025-06-30T12:00:00Z" ∧
    (backupPolicyUpdateState policyStateEx policyStateEx updatedPolicyEx
        "2025-06-30T12:00:00Z").createdAt ≠ policyStateEx.createdAt := by
  exact ⟨rfl, by decide⟩

/-- C9 (amended): on every successful update the new state takes id, name and
enabled from the remote reply while both `created_at` and `updated_at` are
overwritten with the local current timestamp; the prior state's `created_at`
is never read. -/
theorem C9_created_at_restamped (plan state : BackupPolicyState)
    (upd : BackupPolicy) (now : String) :
    (backupPolicyUpdateState plan state upd now).createdAt = now ∧
    (backupPolicyUpdateState plan state upd now).updatedAt = now ∧
    (backupPolicyUpdateState plan state upd now).id = upd.id ∧
    (backupPolicyUpdateState plan state upd now).name = upd.name ∧
    (backupPolicyUpdateState plan state upd now).enabled = upd.enabled :=
  ⟨rfl, rfl, rfl, rfl, rfl⟩

/-! ## C8 — restore-job wait timeout with best-effort final fetch -/

/-- If every fetch the deadline still allows keeps the loop polling (fetch
succeeds with an unset or non-terminal status), the wait returns the timeout
error. -/
theorem wait_timeout_of_nonterminal (jobId : String)
    (fetch : Nat → Except String RestoreJob) :
    ∀ (ticks i : Nat), (∀ k, k < ticks → continuesPolling (fetch (i + k)) = true) →
      waitForRestoreJobCompletion jobId fetch ticks i =
        .error ("timeout waiting for restore job " ++ jobId ++ " to complete") := by
  intro ticks
  induction ticks with
  | zero => intro i _; rfl
  | succ t ih =>
    intro i h
    have h0 : continuesPolling (fetch i) = true := by
      have := h 0 (Nat.succ_pos t)
      simpa using this
    unfold waitForRestoreJobCompletion
    cases hf : fetch i with
    | error e => rw [hf] at h0; simp [continuesPolling] at h0
    | ok job =>
      rw [hf] at h0
      cases hs : job.details.status with
      | none =>
        simp only [hs]
        apply ih
        intro k hk
        have := h (k + 1) (by omega)
        simpa [Nat.add_assoc, Nat.add_comm 1 k] using this
      | some s =>
        simp only [continuesPolling, hs, Bool.not_eq_true', Bool.or_eq_false_iff,
          beq_eq_false_iff_ne, ne_eq] at h0
        simp only [hs]
        rw [if_neg (by tauto), if_neg (by tauto)]
        apply ih
        intro k hk
        have := h (k + 1) (by omega)
        simpa [Nat.add_assoc, Nat.add_comm 1 k] using this

/-- C8: a synchronous wait that reaches the deadline with no terminal status
surfaces the timeout error; the Create wait section then performs the final
status fetch — if it fails the state still records the timeout message with
status `JOB_FAILED` (never a blank record), and if it succeeds the state is
populated from the fetched job. -/
theorem C8_timeout_best_effort_fetch (jobId : String)
    (fetch : Nat → Except String RestoreJob) (ticks i : Nat)
    (d : RestoreJobState) (finalFetch : Except String RestoreJob) :
    (∀ k, k < ticks → continuesPolling (fetch (i + k)) = true) →
    waitForRestoreJobCompletion jobId fetch ticks i =
      .error ("timeout waiting for restore job " ++ jobId ++ " to complete") ∧
    (∀ msg, finalFetch = .error msg →
      restoreJobCreateWaitSection d (waitForRestoreJobCompletion jobId fetch ticks i) finalFetch =
        { d with
          statusMessage := some ("timeout waiting for restore job " ++ jobId ++ " to complete")
          status := "JOB_FAILED" }) ∧
    (∀ j, finalFetch = .ok j →
      restoreJobCreateWaitSection d (waitForRestoreJobCompletion jobId fetch ticks i) finalFetch =
        updateJobStatus
          { d with
            statusMessage := some ("timeout waiting for restore job " ++ jobId ++ " to complete")
            status := "JOB_FAILED" } j) ∧
    (∀ msg, finalFetch = .error msg →
      (restoreJobCreateWaitSection d (waitForRestoreJobCompletion jobId fetch ticks i)
          finalFetch).statusMessage.isSome = true ∧
      (restoreJobCreateWaitSection d (waitForRestoreJobCompletion jobId fetch ticks i)
          finalFetch).status = "JOB_FAILED") := by
  intro h
  have hwait := wait_timeout_of_nonterminal jobId fetch ticks i h
  refine ⟨hwait, ?_, ?_, ?_⟩
  · intro msg hff
    rw [hwait, hff]
    rfl
  · intro j hff
    rw [hwait, hff]
    rfl
  · intro msg hff
    rw [hwait, hff]
    exact ⟨rfl, rfl⟩

/-- A job stuck in a running state, used by the C8 witness. -/
def runningJobEx : RestoreJob := { details := { status := some "JOB_RUNNING" } }

def restoreJobStateEx : RestoreJobState := { createdAt := "2025-01-01T00:00:00Z" }

/-- C8 witness: the theorem applied to a poll sequence that stays
`JOB_RUNNING` for the three ticks the deadline allows and a failing final
fetch. -/
theorem C8_timeout_best_effort_fetch_witness :
    waitForRestoreJobCompletion "job-1" (fun _ => .ok runningJobEx) 3 0 =
      .error "timeout waiting for restore job job-1 to complete" ∧
    restoreJobCreateWaitSection restoreJobStateEx
        (waitForRestoreJobCompletion "job-1" (fun _ => .ok runningJobEx) 3 0)
        (.error "connection refused") =
      { restoreJobStateEx with
        statusMessage := some "timeout waiting for restore job job-1 to complete"
        status := "JOB_FAILED" } := by
  have hthm := C8_timeout_best_effort_fetch "job-1" (fun _ => .ok runningJobEx) 3 0
    restoreJobStateEx (.error "connection refused") (fun k _ => rfl)
  exact ⟨hthm.1, hthm.2.1 "connection refused" rfl⟩

end Eon
